import Mathlib

/-!
# DCMAUI native bridge (`dcmaui_native_bridge.c`)

A shallow embedding of the C dispatch bridge.

* The nine file-scope `static` function pointers form the `Registry`.  A function
  pointer is its address (`FnPtr`), the null pointer being address `0`; the C test
  `if (p)` is `p ≠ NULL`.
* The functions behind the pointers are not part of the bridge.  Their behaviour is
  a parameter (`Extern`): a handler maps its arguments and the state of the hosting
  code to an `int8_t` status and a new host state, the event sink maps its arguments
  and the host state to a new host state.  The registry variables are `static`, so
  the hosting code can change them only through `dcmaui_register_swift_functions`
  and `dcmaui_set_event_callback`; such calls are calls of the bridge of their own
  and appear as such in the call sequences (`BridgeCall`, `run`).
* Every indirect call the bridge performs is appended to a log (`World.log`), which
  is how "invoked exactly once, with these arguments" is stated.
* `const char*` arguments are never dereferenced by the bridge; they are passed on
  as they are (`CStr`, `none` being a null pointer).  `int8_t` and `int32_t` values
  are never computed with, they are passed on as they are (`Int`).
-/

namespace DCMAUI

/-- Address of a function; `0` is the null pointer. -/
abbrev FnPtr := Nat

/-- The null function pointer. -/
abbrev NULL : FnPtr := 0

/-- A `const char*` argument: `none` is a null pointer, `some s` points to the text `s`. -/
abbrev CStr := Option String

/-- The file-scope variables of `dcmaui_native_bridge.c`. -/
structure Registry where
  swift_initialize : FnPtr
  swift_create_view : FnPtr
  swift_update_view : FnPtr
  swift_delete_view : FnPtr
  swift_attach_view : FnPtr
  swift_set_children : FnPtr
  swift_add_event_listeners : FnPtr
  swift_remove_event_listeners : FnPtr
  event_callback : FnPtr
deriving DecidableEq, Repr

/-- The initialisers of the file-scope variables: every pointer is `NULL`. -/
def Registry.initial : Registry where
  swift_initialize := NULL
  swift_create_view := NULL
  swift_update_view := NULL
  swift_delete_view := NULL
  swift_attach_view := NULL
  swift_set_children := NULL
  swift_add_event_listeners := NULL
  swift_remove_event_listeners := NULL
  event_callback := NULL

/-- The argument list a command handler receives, one constructor per C signature:
`()`, `(const char*)`, `(const char*, const char*)`,
`(const char*, const char*, const char*)` and `(const char*, const char*, int32_t)`. -/
inductive Args where
  | none : Args
  | s (a : CStr) : Args
  | ss (a b : CStr) : Args
  | sss (a b c : CStr) : Args
  | ssi (a b : CStr) (i : Int) : Args
deriving DecidableEq, Repr

/-- One indirect call made by the bridge: a command handler at address `f` called
with `a`, or the event sink at address `cb` called with three strings. -/
inductive Invocation where
  | swift (f : FnPtr) (a : Args) : Invocation
  | event (cb : FnPtr) (view_id event_type event_data_json : CStr) : Invocation
deriving DecidableEq, Repr

/-- Behaviour of the code behind the function pointers, over a host state `H`. -/
structure Extern (H : Type) where
  handler : FnPtr → Args → H → Int × H
  sink : FnPtr → CStr → CStr → CStr → H → H

/-- Everything a bridge call can read or change: the registry, the state of the
hosting code, and the log of the indirect calls made so far. -/
structure World (H : Type) where
  reg : Registry
  host : H
  log : List Invocation
deriving DecidableEq

/-- The world at process start. -/
def World.initial {H : Type} (h : H) : World H :=
  { reg := Registry.initial, host := h, log := [] }

/-- The indirect call `return f(a);` of a command entry point. -/
def World.callSwift {H : Type} (x : Extern H) (w : World H) (f : FnPtr) (a : Args) :
    Int × World H :=
  ((x.handler f a w.host).1,
   { w with host := (x.handler f a w.host).2, log := w.log ++ [Invocation.swift f a] })

/-- The indirect call `event_callback(view_id, event_type, event_data_json);`. -/
def World.callEvent {H : Type} (x : Extern H) (w : World H) (cb : FnPtr)
    (view_id event_type event_data_json : CStr) : World H :=
  { w with host := x.sink cb view_id event_type event_data_json w.host,
           log := w.log ++ [Invocation.event cb view_id event_type event_data_json] }

/-- `void dcmaui_register_swift_functions(init, create, update, delete, attach,
set_children, add_listeners, remove_listeners)`: eight assignments. -/
def dcmaui_register_swift_functions {H : Type}
    (init create update delete attach set_children add_listeners remove_listeners : FnPtr)
    (w : World H) : World H :=
  { w with reg :=
    { w.reg with
      swift_initialize := init
      swift_create_view := create
      swift_update_view := update
      swift_delete_view := delete
      swift_attach_view := attach
      swift_set_children := set_children
      swift_add_event_listeners := add_listeners
      swift_remove_event_listeners := remove_listeners } }

/-- `int8_t dcmaui_initialize()`. -/
def dcmaui_initialize {H : Type} (x : Extern H) (w : World H) : Int × World H :=
  if w.reg.swift_initialize ≠ NULL then
    w.callSwift x w.reg.swift_initialize Args.none
  else
    (0, w)

/-- `int8_t dcmaui_create_view(view_id, type, props_json)`. -/
def dcmaui_create_view {H : Type} (x : Extern H) (view_id type props_json : CStr)
    (w : World H) : Int × World H :=
  if w.reg.swift_create_view ≠ NULL then
    w.callSwift x w.reg.swift_create_view (Args.sss view_id type props_json)
  else
    (0, w)

/-- `int8_t dcmaui_update_view(view_id, props_json)`. -/
def dcmaui_update_view {H : Type} (x : Extern H) (view_id props_json : CStr)
    (w : World H) : Int × World H :=
  if w.reg.swift_update_view ≠ NULL then
    w.callSwift x w.reg.swift_update_view (Args.ss view_id props_json)
  else
    (0, w)

/-- `int8_t dcmaui_delete_view(view_id)`. -/
def dcmaui_delete_view {H : Type} (x : Extern H) (view_id : CStr)
    (w : World H) : Int × World H :=
  if w.reg.swift_delete_view ≠ NULL then
    w.callSwift x w.reg.swift_delete_view (Args.s view_id)
  else
    (0, w)

/-- `int8_t dcmaui_attach_view(child_id, parent_id, index)`. -/
def dcmaui_attach_view {H : Type} (x : Extern H) (child_id parent_id : CStr) (index : Int)
    (w : World H) : Int × World H :=
  if w.reg.swift_attach_view ≠ NULL then
    w.callSwift x w.reg.swift_attach_view (Args.ssi child_id parent_id index)
  else
    (0, w)

/-- `int8_t dcmaui_set_children(view_id, children_json)`. -/
def dcmaui_set_children {H : Type} (x : Extern H) (view_id children_json : CStr)
    (w : World H) : Int × World H :=
  if w.reg.swift_set_children ≠ NULL then
    w.callSwift x w.reg.swift_set_children (Args.ss view_id children_json)
  else
    (0, w)

/-- `int8_t dcmaui_add_event_listeners(view_id, events_json)`. -/
def dcmaui_add_event_listeners {H : Type} (x : Extern H) (view_id events_json : CStr)
    (w : World H) : Int × World H :=
  if w.reg.swift_add_event_listeners ≠ NULL then
    w.callSwift x w.reg.swift_add_event_listeners (Args.ss view_id events_json)
  else
    (0, w)

/-- `int8_t dcmaui_remove_event_listeners(view_id, events_json)`. -/
def dcmaui_remove_event_listeners {H : Type} (x : Extern H) (view_id events_json : CStr)
    (w : World H) : Int × World H :=
  if w.reg.swift_remove_event_listeners ≠ NULL then
    w.callSwift x w.reg.swift_remove_event_listeners (Args.ss view_id events_json)
  else
    (0, w)

/-- `void dcmaui_set_event_callback(callback)`: one assignment. -/
def dcmaui_set_event_callback {H : Type} (callback : FnPtr) (w : World H) : World H :=
  { w with reg := { w.reg with event_callback := callback } }

/-- `void dcmaui_send_event(view_id, event_type, event_data_json)`. -/
def dcmaui_send_event {H : Type} (x : Extern H) (view_id event_type event_data_json : CStr)
    (w : World H) : World H :=
  if w.reg.event_callback ≠ NULL then
    w.callEvent x w.reg.event_callback view_id event_type event_data_json
  else
    w

/-! ## Sequences of bridge calls -/

/-- One call of a function exported by `dcmaui_native_bridge.h`, with its arguments. -/
inductive BridgeCall where
  | register_swift_functions
      (init create update delete attach set_children add_listeners remove_listeners : FnPtr) :
      BridgeCall
  | init : BridgeCall
  | create_view (view_id type props_json : CStr) : BridgeCall
  | update_view (view_id props_json : CStr) : BridgeCall
  | delete_view (view_id : CStr) : BridgeCall
  | attach_view (child_id parent_id : CStr) (index : Int) : BridgeCall
  | set_children (view_id children_json : CStr) : BridgeCall
  | add_event_listeners (view_id events_json : CStr) : BridgeCall
  | remove_event_listeners (view_id events_json : CStr) : BridgeCall
  | set_event_callback (callback : FnPtr) : BridgeCall
  | send_event (view_id event_type event_data_json : CStr) : BridgeCall
deriving DecidableEq, Repr

/-- Performs one bridge call: the status it returns (`none` for a `void` function)
and the world afterwards. -/
def BridgeCall.exec {H : Type} (x : Extern H) : BridgeCall → World H → Option Int × World H
  | .register_swift_functions a b c d e f g h, w =>
      (none, dcmaui_register_swift_functions a b c d e f g h w)
  | .init, w =>
      (some ( dcmaui_initialize x w).1, ( dcmaui_initialize x w).2)
  | .create_view v t p, w =>
      (some (dcmaui_create_view x v t p w).1, (dcmaui_create_view x v t p w).2)
  | .update_view v p, w =>
      (some (dcmaui_update_view x v p w).1, (dcmaui_update_view x v p w).2)
  | .delete_view v, w =>
      (some (dcmaui_delete_view x v w).1, (dcmaui_delete_view x v w).2)
  | .attach_view c p i, w =>
      (some (dcmaui_attach_view x c p i w).1, (dcmaui_attach_view x c p i w).2)
  | .set_children v c, w =>
      (some (dcmaui_set_children x v c w).1, (dcmaui_set_children x v c w).2)
  | .add_event_listeners v e, w =>
      (some (dcmaui_add_event_listeners x v e w).1, (dcmaui_add_event_listeners x v e w).2)
  | .remove_event_listeners v e, w =>
      (some (dcmaui_remove_event_listeners x v e w).1,
       (dcmaui_remove_event_listeners x v e w).2)
  | .set_event_callback cb, w =>
      (none, dcmaui_set_event_callback cb w)
  | .send_event v t d, w =>
      (none, dcmaui_send_event x v t d w)

/-- Performs the calls of a list one after another, the first element first. -/
def run {H : Type} (x : Extern H) : List BridgeCall → World H → World H
  | [], w => w
  | c :: cs, w => run x cs (c.exec x w).2

/-- Passes a list of events one after another to `dcmaui_send_event`. -/
def send_events {H : Type} (x : Extern H) : List (CStr × CStr × CStr) → World H → World H
  | [], w => w
  | e :: es, w => send_events x es (dcmaui_send_event x e.1 e.2.1 e.2.2 w)

/-- Is the call a call of `dcmaui_register_swift_functions`? -/
def BridgeCall.isRegistration : BridgeCall → Bool
  | .register_swift_functions _ _ _ _ _ _ _ _ => true
  | _ => false

/-- Is the call a call of `dcmaui_set_event_callback`? -/
def BridgeCall.isSetEventCallback : BridgeCall → Bool
  | .set_event_callback _ => true
  | _ => false

/-- Is the call one of the eight command entry points or `dcmaui_send_event`? -/
def BridgeCall.isDispatch (c : BridgeCall) : Bool :=
  !c.isRegistration && !c.isSetEventCallback

/-- The eight command slots, in the order of the registration call. -/
def Registry.commandSlots (r : Registry) : List FnPtr :=
  [ r.swift_initialize, r.swift_create_view, r.swift_update_view, r.swift_delete_view,
    r.swift_attach_view, r.swift_set_children, r.swift_add_event_listeners,
    r.swift_remove_event_listeners]

/-- Registry state "Unready": no command handler is registered. -/
def Registry.Unready (r : Registry) : Prop :=
  ∀ p ∈ r.commandSlots, p = NULL

/-- Registry state "Ready": some command handler is registered. -/
def Registry.Ready (r : Registry) : Prop :=
  ¬ r.Unready

/-- Every one of the eight command entry points has a handler to forward to. -/
def Registry.AllForward (r : Registry) : Prop :=
  ∀ p ∈ r.commandSlots, p ≠ NULL

instance (r : Registry) : Decidable r.Unready := by
  unfold Registry.Unready; infer_instance

instance (r : Registry) : Decidable r.Ready := by
  unfold Registry.Ready; infer_instance

instance (r : Registry) : Decidable r.AllForward := by
  unfold Registry.AllForward; infer_instance

/-- The arguments of the last registration call of a list of calls, if there is one. -/
def lastRegistration : List BridgeCall → Option (List FnPtr)
  | [] => none
  | c :: cs =>
    match lastRegistration cs with
    | some r => some r
    | none =>
      match c with
      | .register_swift_functions a b c d e f g h => some [a, b, c, d, e, f, g, h]
      | _ => none

/-- A sample host for the concrete instances: the host state counts the indirect
calls, a handler at address `f` returns status `f - 3`, the sink adds `100`. -/
def sampleExtern : Extern Nat where
  handler := fun f _ h => ((f : Int) - 3, h + 1)
  sink := fun _ _ _ _ h => h + 100

/-! ## Frame lemmas -/

theorem callSwift_reg {H : Type} (x : Extern H) (w : World H) (f : FnPtr) (a : Args) :
    (w.callSwift x f a).2.reg = w.reg := rfl

theorem callEvent_reg {H : Type} (x : Extern H) (w : World H) (cb : FnPtr) (v t d : CStr) :
    (w.callEvent x cb v t d).reg = w.reg := rfl

/-- A command entry point or `dcmaui_send_event` leaves the registry as it was. -/
theorem exec_reg_of_isDispatch {H : Type} (x : Extern H) (c : BridgeCall) (w : World H)
    (hc : c.isDispatch = true) : (c.exec x w).2.reg = w.reg := by
  cases c <;>
    simp [BridgeCall.isDispatch, BridgeCall.isRegistration,
      BridgeCall.isSetEventCallback] at hc <;>
    simp only [BridgeCall.exec, dcmaui_initialize, dcmaui_create_view, dcmaui_update_view,
      dcmaui_delete_view, dcmaui_attach_view, dcmaui_set_children,
      dcmaui_add_event_listeners, dcmaui_remove_event_listeners, dcmaui_send_event] <;>
    split <;> rfl

/-- No call other than a registration call changes a command slot. -/
theorem exec_commandSlots {H : Type} (x : Extern H) (c : BridgeCall) (w : World H)
    (hc : c.isRegistration = false) :
    (c.exec x w).2.reg.commandSlots = w.reg.commandSlots := by
  by_cases hs : c.isSetEventCallback = true
  · cases c <;> simp [BridgeCall.isSetEventCallback] at hs
    rfl
  · have hd : c.isDispatch = true := by
      simp [BridgeCall.isDispatch, hc, hs]
    rw [exec_reg_of_isDispatch x c w hd]

/-- No call other than `dcmaui_set_event_callback` changes the event-sink slot. -/
theorem exec_event_callback {H : Type} (x : Extern H) (c : BridgeCall) (w : World H)
    (hc : c.isSetEventCallback = false) :
    (c.exec x w).2.reg.event_callback = w.reg.event_callback := by
  by_cases hr : c.isRegistration = true
  · cases c <;> simp [BridgeCall.isRegistration] at hr
    rfl
  · have hd : c.isDispatch = true := by
      simp [BridgeCall.isDispatch, hc, hr]
    rw [exec_reg_of_isDispatch x c w hd]

theorem run_commandSlots {H : Type} (x : Extern H) (ops : List BridgeCall) (w : World H)
    (hops : ∀ c ∈ ops, c.isRegistration = false) :
    (run x ops w).reg.commandSlots = w.reg.commandSlots := by
  induction ops generalizing w with
  | nil => rfl
  | cons c cs ih =>
    have hc : c.isRegistration = false := hops c (List.mem_cons_self c cs)
    have hcs : ∀ d ∈ cs, d.isRegistration = false :=
      fun d hd => hops d (List.mem_cons_of_mem c hd)
    simp only [run]
    rw [ih (c.exec x w).2 hcs, exec_commandSlots x c w hc]

theorem run_event_callback {H : Type} (x : Extern H) (ops : List BridgeCall) (w : World H)
    (hops : ∀ c ∈ ops, c.isSetEventCallback = false) :
    (run x ops w).reg.event_callback = w.reg.event_callback := by
  induction ops generalizing w with
  | nil => rfl
  | cons c cs ih =>
    have hc : c.isSetEventCallback = false := hops c (List.mem_cons_self c cs)
    have hcs : ∀ d ∈ cs, d.isSetEventCallback = false :=
      fun d hd => hops d (List.mem_cons_of_mem c hd)
    simp only [run]
    rw [ih (c.exec x w).2 hcs, exec_event_callback x c w hc]

theorem commandSlots_eq_iff (r r2 : Registry) :
    r.commandSlots = r2.commandSlots ↔
      r.swift_initialize = r2.swift_initialize ∧
      r.swift_create_view = r2.swift_create_view ∧
      r.swift_update_view = r2.swift_update_view ∧
      r.swift_delete_view = r2.swift_delete_view ∧
      r.swift_attach_view = r2.swift_attach_view ∧
      r.swift_set_children = r2.swift_set_children ∧
      r.swift_add_event_listeners = r2.swift_add_event_listeners ∧
      r.swift_remove_event_listeners = r2.swift_remove_event_listeners := by
  simp [Registry.commandSlots]

/-! ## No-handler safety -/

/-- C1: before any call of `dcmaui_register_swift_functions` (in the initial world, and
in every world reached from it by calls that are not registration calls) each of the
eight command entry points returns status `0`, makes no indirect call and leaves the
registry, the host and the call log as they were, for every argument tuple. -/
theorem no_handler_safety {H : Type} (x : Extern H) (h : H) (ops : List BridgeCall)
    (hops : ∀ c ∈ ops, c.isRegistration = false)
    (a b c : CStr) (i : Int) :
    dcmaui_initialize x (run x ops (World.initial h)) = (0, run x ops (World.initial h)) ∧
    dcmaui_create_view x a b c (run x ops (World.initial h))
      = (0, run x ops (World.initial h)) ∧
    dcmaui_update_view x a b (run x ops (World.initial h))
      = (0, run x ops (World.initial h)) ∧
    dcmaui_delete_view x a (run x ops (World.initial h))
      = (0, run x ops (World.initial h)) ∧
    dcmaui_attach_view x a b i (run x ops (World.initial h))
      = (0, run x ops (World.initial h)) ∧
    dcmaui_set_children x a b (run x ops (World.initial h))
      = (0, run x ops (World.initial h)) ∧
    dcmaui_add_event_listeners x a b (run x ops (World.initial h))
      = (0, run x ops (World.initial h)) ∧
    dcmaui_remove_event_listeners x a b (run x ops (World.initial h))
      = (0, run x ops (World.initial h)) := by
  have hs := run_commandSlots x ops (World.initial h) hops
  rw [commandSlots_eq_iff] at hs
  obtain ⟨h1, h2, h3, h4, h5, h6, h7, h8⟩ := hs
  generalize run x ops (World.initial h) = W at h1 h2 h3 h4 h5 h6 h7 h8 ⊢
  change W.reg.swift_initialize = NULL at h1
  change W.reg.swift_create_view = NULL at h2
  change W.reg.swift_update_view = NULL at h3
  change W.reg.swift_delete_view = NULL at h4
  change W.reg.swift_attach_view = NULL at h5
  change W.reg.swift_set_children = NULL at h6
  change W.reg.swift_add_event_listeners = NULL at h7
  change W.reg.swift_remove_event_listeners = NULL at h8
  simp [ dcmaui_initialize, dcmaui_create_view, dcmaui_update_view, dcmaui_delete_view,
    dcmaui_attach_view, dcmaui_set_children, dcmaui_add_event_listeners,
    dcmaui_remove_event_listeners, h1, h2, h3, h4, h5, h6, h7, h8]

theorem no_handler_safety_witness :
    (∀ c ∈ [BridgeCall.set_event_callback 9,
            BridgeCall.send_event (some "v1") (some "tap") (some "data"),
            BridgeCall.delete_view (some "v1")], c.isRegistration = false) ∧
    dcmaui_create_view sampleExtern (some "v1") (some "button") none
      (run sampleExtern [BridgeCall.set_event_callback 9,
            BridgeCall.send_event (some "v1") (some "tap") (some "data"),
            BridgeCall.delete_view (some "v1")] (World.initial 0))
    = (0, run sampleExtern [BridgeCall.set_event_callback 9,
            BridgeCall.send_event (some "v1") (some "tap") (some "data"),
            BridgeCall.delete_view (some "v1")] (World.initial 0)) :=
  ⟨by decide,
   (no_handler_safety sampleExtern 0 _ (by decide) (some "v1") (some "button") none 0).2.1⟩

/-! ## Forwarding fidelity -/

/-- C2: after `dcmaui_register_swift_functions(init, create, update, delete, attach,
set_children, add_listeners, remove_listeners)`, each command entry point whose
handler (the argument at its position) is not `NULL` makes exactly one indirect call,
to that handler, with the arguments it was given in the same order, returns the status
the handler returned, and the host is in the state the handler left it in. -/
theorem forwarding_fidelity {H : Type} (x : Extern H) (w : World H)
    (init create update delete attach set_children add_listeners remove_listeners : FnPtr)
    (a b c : CStr) (i : Int) :
    (init ≠ NULL →
       dcmaui_initialize x
        (dcmaui_register_swift_functions init create update delete attach set_children
          add_listeners remove_listeners w)
      = ((x.handler init Args.none w.host).1,
         { reg := (dcmaui_register_swift_functions init create update delete attach set_children
          add_listeners remove_listeners w).reg,
           host := (x.handler init Args.none w.host).2,
           log := w.log ++ [Invocation.swift init Args.none] })) ∧
    (create ≠ NULL →
       dcmaui_create_view x a b c
        (dcmaui_register_swift_functions init create update delete attach set_children
          add_listeners remove_listeners w)
      = ((x.handler create (Args.sss a b c) w.host).1,
         { reg := (dcmaui_register_swift_functions init create update delete attach set_children
          add_listeners remove_listeners w).reg,
           host := (x.handler create (Args.sss a b c) w.host).2,
           log := w.log ++ [Invocation.swift create (Args.sss a b c)] })) ∧
    (update ≠ NULL →
       dcmaui_update_view x a b
        (dcmaui_register_swift_functions init create update delete attach set_children
          add_listeners remove_listeners w)
      = ((x.handler update (Args.ss a b) w.host).1,
         { reg := (dcmaui_register_swift_functions init create update delete attach set_children
          add_listeners remove_listeners w).reg,
           host := (x.handler update (Args.ss a b) w.host).2,
           log := w.log ++ [Invocation.swift update (Args.ss a b)] })) ∧
    (delete ≠ NULL →
       dcmaui_delete_view x a
        (dcmaui_register_swift_functions init create update delete attach set_children
          add_listeners remove_listeners w)
      = ((x.handler delete (Args.s a) w.host).1,
         { reg := (dcmaui_register_swift_functions init create update delete attach set_children
          add_listeners remove_listeners w).reg,
           host := (x.handler delete (Args.s a) w.host).2,
           log := w.log ++ [Invocation.swift delete (Args.s a)] })) ∧
    (attach ≠ NULL →
       dcmaui_attach_view x a b i
        (dcmaui_register_swift_functions init create update delete attach set_children
          add_listeners remove_listeners w)
      = ((x.handler attach (Args.ssi a b i) w.host).1,
         { reg := (dcmaui_register_swift_functions init create update delete attach set_children
          add_listeners remove_listeners w).reg,
           host := (x.handler attach (Args.ssi a b i) w.host).2,
           log := w.log ++ [Invocation.swift attach (Args.ssi a b i)] })) ∧
    (set_children ≠ NULL →
       dcmaui_set_children x a b
        (dcmaui_register_swift_functions init create update delete attach set_children
          add_listeners remove_listeners w)
      = ((x.handler set_children (Args.ss a b) w.host).1,
         { reg := (dcmaui_register_swift_functions init create update delete attach set_children
          add_listeners remove_listeners w).reg,
           host := (x.handler set_children (Args.ss a b) w.host).2,
           log := w.log ++ [Invocation.swift set_children (Args.ss a b)] })) ∧
    (add_listeners ≠ NULL →
       dcmaui_add_event_listeners x a b
        (dcmaui_register_swift_functions init create update delete attach set_children
          add_listeners remove_listeners w)
      = ((x.handler add_listeners (Args.ss a b) w.host).1,
         { reg := (dcmaui_register_swift_functions init create update delete attach set_children
          add_listeners remove_listeners w).reg,
           host := (x.handler add_listeners (Args.ss a b) w.host).2,
           log := w.log ++ [Invocation.swift add_listeners (Args.ss a b)] })) ∧
    (remove_listeners ≠ NULL →
       dcmaui_remove_event_listeners x a b
        (dcmaui_register_swift_functions init create update delete attach set_children
          add_listeners remove_listeners w)
      = ((x.handler remove_listeners (Args.ss a b) w.host).1,
         { reg := (dcmaui_register_swift_functions init create update delete attach set_children
          add_listeners remove_listeners w).reg,
           host := (x.handler remove_listeners (Args.ss a b) w.host).2,
           log := w.log ++ [Invocation.swift remove_listeners (Args.ss a b)] })) := by
  refine ⟨?_, ?_, ?_, ?_, ?_, ?_, ?_, ?_⟩ <;> intro hp <;>
    simp [ dcmaui_initialize, dcmaui_create_view, dcmaui_update_view, dcmaui_delete_view,
      dcmaui_attach_view, dcmaui_set_children, dcmaui_add_event_listeners,
      dcmaui_remove_event_listeners, dcmaui_register_swift_functions, World.callSwift, hp]

theorem forwarding_fidelity_witness :
    (7 : FnPtr) ≠ NULL ∧
    dcmaui_set_children sampleExtern (some "v1") (some "[v2,v3]")
      (dcmaui_register_swift_functions 1 2 3 4 5 7 8 9 (World.initial 40))
    = (4,
       { reg :=
           { swift_initialize := 1, swift_create_view := 2, swift_update_view := 3,
             swift_delete_view := 4, swift_attach_view := 5, swift_set_children := 7,
             swift_add_event_listeners := 8, swift_remove_event_listeners := 9,
             event_callback := NULL },
         host := 41,
         log := [Invocation.swift 7 (Args.ss (some "v1") (some "[v2,v3]"))] }) :=
  ⟨by decide,
   (forwarding_fidelity sampleExtern (World.initial 40) 1 2 3 4 5 7 8 9
      (some "v1") (some "[v2,v3]") none 0).2.2.2.2.2.1 (by decide)⟩

/-! ## Re-registration -/

/-- C3: registering a handler set and then a second one leaves the world exactly as
registering the second one alone; every later call sequence runs identically; and
each command entry point forwards to the second set's handler for its operation if
that handler is not `NULL`, and otherwise returns `0` without any indirect call. -/
theorem reregistration_replaces {H : Type} (x : Extern H) (w : World H)
    (init1 create1 update1 delete1 attach1 set_children1 add_listeners1
      remove_listeners1 : FnPtr)
    (init2 create2 update2 delete2 attach2 set_children2 add_listeners2
      remove_listeners2 : FnPtr)
    (ops : List BridgeCall) (a b c : CStr) (i : Int) :
    ((dcmaui_register_swift_functions init2 create2 update2 delete2 attach2 set_children2
          add_listeners2 remove_listeners2
          (dcmaui_register_swift_functions init1 create1 update1 delete1 attach1 set_children1
            add_listeners1 remove_listeners1 w))
      = dcmaui_register_swift_functions init2 create2 update2 delete2 attach2 set_children2
          add_listeners2 remove_listeners2 w) ∧
    (run x ops
        (dcmaui_register_swift_functions init2 create2 update2 delete2 attach2 set_children2
          add_listeners2 remove_listeners2
          (dcmaui_register_swift_functions init1 create1 update1 delete1 attach1 set_children1
            add_listeners1 remove_listeners1 w))
      = run x ops
          (dcmaui_register_swift_functions init2 create2 update2 delete2 attach2
            set_children2 add_listeners2 remove_listeners2 w)) ∧
    ( dcmaui_initialize x
        (dcmaui_register_swift_functions init2 create2 update2 delete2 attach2 set_children2
          add_listeners2 remove_listeners2
          (dcmaui_register_swift_functions init1 create1 update1 delete1 attach1 set_children1
            add_listeners1 remove_listeners1 w))
      = if init2 ≠ NULL then
          World.callSwift x
            (dcmaui_register_swift_functions init2 create2 update2 delete2 attach2 set_children2
          add_listeners2 remove_listeners2
          (dcmaui_register_swift_functions init1 create1 update1 delete1 attach1 set_children1
            add_listeners1 remove_listeners1 w))
            init2 Args.none
        else
          (0,
           (dcmaui_register_swift_functions init2 create2 update2 delete2 attach2 set_children2
          add_listeners2 remove_listeners2
          (dcmaui_register_swift_functions init1 create1 update1 delete1 attach1 set_children1
            add_listeners1 remove_listeners1 w)))) ∧
    ( dcmaui_create_view x a b c
        (dcmaui_register_swift_functions init2 create2 update2 delete2 attach2 set_children2
          add_listeners2 remove_listeners2
          (dcmaui_register_swift_functions init1 create1 update1 delete1 attach1 set_children1
            add_listeners1 remove_listeners1 w))
      = if create2 ≠ NULL then
          World.callSwift x
            (dcmaui_register_swift_functions init2 create2 update2 delete2 attach2 set_children2
          add_listeners2 remove_listeners2
          (dcmaui_register_swift_functions init1 create1 update1 delete1 attach1 set_children1
            add_listeners1 remove_listeners1 w))
            create2 (Args.sss a b c)
        else
          (0,
           (dcmaui_register_swift_functions init2 create2 update2 delete2 attach2 set_children2
          add_listeners2 remove_listeners2
          (dcmaui_register_swift_functions init1 create1 update1 delete1 attach1 set_children1
            add_listeners1 remove_listeners1 w)))) ∧
    ( dcmaui_update_view x a b
        (dcmaui_register_swift_functions init2 create2 update2 delete2 attach2 set_children2
          add_listeners2 remove_listeners2
          (dcmaui_register_swift_functions init1 create1 update1 delete1 attach1 set_children1
            add_listeners1 remove_listeners1 w))
      = if update2 ≠ NULL then
          World.callSwift x
            (dcmaui_register_swift_functions init2 create2 update2 delete2 attach2 set_children2
          add_listeners2 remove_listeners2
          (dcmaui_register_swift_functions init1 create1 update1 delete1 attach1 set_children1
            add_listeners1 remove_listeners1 w))
            update2 (Args.ss a b)
        else
          (0,
           (dcmaui_register_swift_functions init2 create2 update2 delete2 attach2 set_children2
          add_listeners2 remove_listeners2
          (dcmaui_register_swift_functions init1 create1 update1 delete1 attach1 set_children1
            add_listeners1 remove_listeners1 w)))) ∧
    ( dcmaui_delete_view x a
        (dcmaui_register_swift_functions init2 create2 update2 delete2 attach2 set_children2
          add_listeners2 remove_listeners2
          (dcmaui_register_swift_functions init1 create1 update1 delete1 attach1 set_children1
            add_listeners1 remove_listeners1 w))
      = if delete2 ≠ NULL then
          World.callSwift x
            (dcmaui_register_swift_functions init2 create2 update2 delete2 attach2 set_children2
          add_listeners2 remove_listeners2
          (dcmaui_register_swift_functions init1 create1 update1 delete1 attach1 set_children1
            add_listeners1 remove_listeners1 w))
            delete2 (Args.s a)
        else
          (0,
           (dcmaui_register_swift_functions init2 create2 update2 delete2 attach2 set_children2
          add_listeners2 remove_listeners2
          (dcmaui_register_swift_functions init1 create1 update1 delete1 attach1 set_children1
            add_listeners1 remove_listeners1 w)))) ∧
    ( dcmaui_attach_view x a b i
        (dcmaui_register_swift_functions init2 create2 update2 delete2 attach2 set_children2
          add_listeners2 remove_listeners2
          (dcmaui_register_swift_functions init1 create1 update1 delete1 attach1 set_children1
            add_listeners1 remove_listeners1 w))
      = if attach2 ≠ NULL then
          World.callSwift x
            (dcmaui_register_swift_functions init2 create2 update2 delete2 attach2 set_children2
          add_listeners2 remove_listeners2
          (dcmaui_register_swift_functions init1 create1 update1 delete1 attach1 set_children1
            add_listeners1 remove_listeners1 w))
            attach2 (Args.ssi a b i)
        else
          (0,
           (dcmaui_register_swift_functions init2 create2 update2 delete2 attach2 set_children2
          add_listeners2 remove_listeners2
          (dcmaui_register_swift_functions init1 create1 update1 delete1 attach1 set_children1
            add_listeners1 remove_listeners1 w)))) ∧
    ( dcmaui_set_children x a b
        (dcmaui_register_swift_functions init2 create2 update2 delete2 attach2 set_children2
          add_listeners2 remove_listeners2
          (dcmaui_register_swift_functions init1 create1 update1 delete1 attach1 set_children1
            add_listeners1 remove_listeners1 w))
      = if set_children2 ≠ NULL then
          World.callSwift x
            (dcmaui_register_swift_functions init2 create2 update2 delete2 attach2 set_children2
          add_listeners2 remove_listeners2
          (dcmaui_register_swift_functions init1 create1 update1 delete1 attach1 set_children1
            add_listeners1 remove_listeners1 w))
            set_children2 (Args.ss a b)
        else
          (0,
           (dcmaui_register_swift_functions init2 create2 update2 delete2 attach2 set_children2
          add_listeners2 remove_listeners2
          (dcmaui_register_swift_functions init1 create1 update1 delete1 attach1 set_children1
            add_listeners1 remove_listeners1 w)))) ∧
    ( dcmaui_add_event_listeners x a b
        (dcmaui_register_swift_functions init2 create2 update2 delete2 attach2 set_children2
          add_listeners2 remove_listeners2
          (dcmaui_register_swift_functions init1 create1 update1 delete1 attach1 set_children1
            add_listeners1 remove_listeners1 w))
      = if add_listeners2 ≠ NULL then
          World.callSwift x
            (dcmaui_register_swift_functions init2 create2 update2 delete2 attach2 set_children2
          add_listeners2 remove_listeners2
          (dcmaui_register_swift_functions init1 create1 update1 delete1 attach1 set_children1
            add_listeners1 remove_listeners1 w))
            add_listeners2 (Args.ss a b)
        else
          (0,
           (dcmaui_register_swift_functions init2 create2 update2 delete2 attach2 set_children2
          add_listeners2 remove_listeners2
          (dcmaui_register_swift_functions init1 create1 update1 delete1 attach1 set_children1
            add_listeners1 remove_listeners1 w)))) ∧
    ( dcmaui_remove_event_listeners x a b
        (dcmaui_register_swift_functions init2 create2 update2 delete2 attach2 set_children2
          add_listeners2 remove_listeners2
          (dcmaui_register_swift_functions init1 create1 update1 delete1 attach1 set_children1
            add_listeners1 remove_listeners1 w))
      = if remove_listeners2 ≠ NULL then
          World.callSwift x
            (dcmaui_register_swift_functions init2 create2 update2 delete2 attach2 set_children2
          add_listeners2 remove_listeners2
          (dcmaui_register_swift_functions init1 create1 update1 delete1 attach1 set_children1
            add_listeners1 remove_listeners1 w))
            remove_listeners2 (Args.ss a b)
        else
          (0,
           (dcmaui_register_swift_functions init2 create2 update2 delete2 attach2 set_children2
          add_listeners2 remove_listeners2
          (dcmaui_register_swift_functions init1 create1 update1 delete1 attach1 set_children1
            add_listeners1 remove_listeners1 w)))) := by
  refine ⟨rfl, rfl, ?_, ?_, ?_, ?_, ?_, ?_, ?_, ?_⟩ <;> rfl

/-! ## Event gateway -/

/-- With an unset event-sink slot `dcmaui_send_event` does nothing. -/
theorem send_event_of_null {H : Type} (x : Extern H) (v t d : CStr) (w : World H)
    (hw : w.reg.event_callback = NULL) : dcmaui_send_event x v t d w = w := by
  simp [dcmaui_send_event, hw]

/-- With a set event-sink slot `dcmaui_send_event` is the indirect call of the sink. -/
theorem send_event_of_ne_null {H : Type} (x : Extern H) (v t d : CStr) (w : World H)
    (hw : w.reg.event_callback ≠ NULL) :
    dcmaui_send_event x v t d w = w.callEvent x w.reg.event_callback v t d := by
  simp [dcmaui_send_event, hw]

/-- C4: whenever the event-sink slot is unset, `dcmaui_send_event` makes no indirect
call and leaves registry, host and call log as they were, for every argument triple.
The slot is unset in the initial world and after `dcmaui_set_event_callback(NULL)`
following an earlier `dcmaui_set_event_callback(cb)`, and stays so over any further
calls that are not `dcmaui_set_event_callback`. -/
theorem dropped_event {H : Type} (x : Extern H) (w : World H) (cb : FnPtr) (h : H)
    (ops : List BridgeCall) (v t d : CStr)
    (hops : ∀ c ∈ ops, c.isSetEventCallback = false) :
    (w.reg.event_callback = NULL → dcmaui_send_event x v t d w = w) ∧
    dcmaui_send_event x v t d (run x ops (World.initial h)) = run x ops (World.initial h) ∧
    dcmaui_send_event x v t d
        (run x ops (dcmaui_set_event_callback NULL (dcmaui_set_event_callback cb w)))
      = run x ops (dcmaui_set_event_callback NULL (dcmaui_set_event_callback cb w)) := by
  refine ⟨send_event_of_null x v t d w, ?_, ?_⟩
  · apply send_event_of_null
    rw [run_event_callback x ops _ hops]
    rfl
  · apply send_event_of_null
    rw [run_event_callback x ops _ hops]
    rfl

theorem dropped_event_witness :
    (∀ c ∈ [BridgeCall.register_swift_functions 1 2 3 4 5 6 7 8,
            BridgeCall.create_view (some "v1") (some "button") (some "props")],
        c.isSetEventCallback = false) ∧
    dcmaui_send_event sampleExtern (some "v1") (some "tap") (some "data")
        (run sampleExtern [BridgeCall.register_swift_functions 1 2 3 4 5 6 7 8,
            BridgeCall.create_view (some "v1") (some "button") (some "props")]
          (dcmaui_set_event_callback NULL (dcmaui_set_event_callback 9 (World.initial 0))))
      = run sampleExtern [BridgeCall.register_swift_functions 1 2 3 4 5 6 7 8,
            BridgeCall.create_view (some "v1") (some "button") (some "props")]
          (dcmaui_set_event_callback NULL (dcmaui_set_event_callback 9 (World.initial 0))) :=
  ⟨by decide,
   (dropped_event sampleExtern (World.initial 0) 9 0 _ (some "v1") (some "tap")
      (some "data") (by decide)).2.2⟩

theorem send_events_reg {H : Type} (x : Extern H) (evs : List (CStr × CStr × CStr))
    (w : World H) : (send_events x evs w).reg = w.reg := by
  induction evs generalizing w with
  | nil => rfl
  | cons e es ih =>
    simp only [send_events]
    rw [ih]
    simp only [dcmaui_send_event]
    split <;> rfl

theorem send_events_log {H : Type} (x : Extern H) (evs : List (CStr × CStr × CStr))
    (w : World H) (hw : w.reg.event_callback ≠ NULL) :
    (send_events x evs w).log
      = w.log ++ evs.map (fun e => Invocation.event w.reg.event_callback e.1 e.2.1 e.2.2) := by
  induction evs generalizing w with
  | nil => simp [send_events]
  | cons e es ih =>
    simp only [send_events]
    rw [send_event_of_ne_null x e.1 e.2.1 e.2.2 w hw]
    rw [ih (w.callEvent x w.reg.event_callback e.1 e.2.1 e.2.2) hw]
    simp [World.callEvent]

/-- C5: with a sink `cb` that is not `NULL` registered by `dcmaui_set_event_callback`, passing
a list of `(view_id, event_type, event_data_json)` triples one after another to
`dcmaui_send_event` makes exactly one indirect call per triple, each to `cb`, with that
triple, in the order of the list (so as many calls as triples), and leaves the
registry as it was. -/
theorem event_fan_out {H : Type} (x : Extern H) (w : World H) (cb : FnPtr)
    (evs : List (CStr × CStr × CStr)) (hcb : cb ≠ NULL) :
    (send_events x evs (dcmaui_set_event_callback cb w)).log
      = w.log ++ evs.map (fun e => Invocation.event cb e.1 e.2.1 e.2.2) ∧
    ((send_events x evs (dcmaui_set_event_callback cb w)).log.drop w.log.length).length
      = evs.length ∧
    (send_events x evs (dcmaui_set_event_callback cb w)).reg
      = (dcmaui_set_event_callback cb w).reg := by
  have hlog := send_events_log x evs (dcmaui_set_event_callback cb w) hcb
  refine ⟨hlog, ?_, send_events_reg x evs _⟩
  rw [hlog]
  simp [dcmaui_set_event_callback]

theorem event_fan_out_witness :
    (5 : FnPtr) ≠ NULL ∧
    (send_events sampleExtern
        [(some "v1", some "tap", some "d1"), (some "v2", some "tap", none),
         (some "v1", some "tap", some "d1")]
        (dcmaui_set_event_callback 5 (World.initial 0))).log
      = [Invocation.event 5 (some "v1") (some "tap") (some "d1"),
         Invocation.event 5 (some "v2") (some "tap") none,
         Invocation.event 5 (some "v1") (some "tap") (some "d1")] :=
  ⟨by decide,
   (event_fan_out sampleExtern (World.initial 0) 5
      [(some "v1", some "tap", some "d1"), (some "v2", some "tap", none),
       (some "v1", some "tap", some "d1")] (by decide)).1⟩

/-! ## Isolation and independence of the slots -/

/-- The indirect calls a bridge call makes depend on the registry only. -/
theorem exec_log_of_reg_eq {H : Type} (x : Extern H) (B : BridgeCall) (w w2 : World H)
    (h : w.reg = w2.reg) :
    ((B.exec x w).2.log.drop w.log.length).length ≤ 1 ∧
    (B.exec x w2).2.log = w2.log ++ (B.exec x w).2.log.drop w.log.length := by
  cases B <;>
    simp only [BridgeCall.exec, dcmaui_initialize, dcmaui_create_view, dcmaui_update_view,
      dcmaui_delete_view, dcmaui_attach_view, dcmaui_set_children,
      dcmaui_add_event_listeners, dcmaui_remove_event_listeners, dcmaui_send_event,
      dcmaui_register_swift_functions, dcmaui_set_event_callback, h] <;>
    (try split) <;>
    simp [World.callSwift, World.callEvent]

/-- C6: the bridge holds no state per identifier.  A command entry point or
`dcmaui_send_event` (call `A`, call `B`) leaves every registry slot as it was, so the
indirect calls `B` makes (which handler, with which arguments) are the same whether
`A` was issued before `B` or not, whatever the view ids of `A` and `B`. -/
theorem isolation_across_identifiers {H : Type} (x : Extern H) (A B : BridgeCall)
    (w : World H) (hA : A.isDispatch = true) (hB : B.isDispatch = true) :
    (A.exec x w).2.reg = w.reg ∧
    (B.exec x w).2.reg = w.reg ∧
    (B.exec x (A.exec x w).2).2.reg = w.reg ∧
    ∃ calls : List Invocation, calls.length ≤ 1 ∧
      (B.exec x w).2.log = w.log ++ calls ∧
      (B.exec x (A.exec x w).2).2.log = (A.exec x w).2.log ++ calls := by
  have hAr := exec_reg_of_isDispatch x A w hA
  refine ⟨hAr, exec_reg_of_isDispatch x B w hB, ?_, ?_⟩
  · rw [exec_reg_of_isDispatch x B _ hB, hAr]
  · have hw := exec_log_of_reg_eq x B w w rfl
    have hA2 := exec_log_of_reg_eq x B w (A.exec x w).2 hAr.symm
    exact ⟨_, hw.1, hw.2, hA2.2⟩

theorem isolation_across_identifiers_witness :
    (BridgeCall.delete_view (some "v1")).isDispatch = true ∧
    (BridgeCall.update_view (some "v2") (some "props")).isDispatch = true ∧
    ∃ calls : List Invocation, calls.length ≤ 1 ∧
      ((BridgeCall.update_view (some "v2") (some "props")).exec sampleExtern
          (dcmaui_register_swift_functions 1 2 3 4 5 6 7 8 (World.initial 0))).2.log
        = (dcmaui_register_swift_functions 1 2 3 4 5 6 7 8 (World.initial 0)).log ++ calls ∧
      ((BridgeCall.update_view (some "v2") (some "props")).exec sampleExtern
          ((BridgeCall.delete_view (some "v1")).exec sampleExtern
            (dcmaui_register_swift_functions 1 2 3 4 5 6 7 8 (World.initial 0))).2).2.log
        = ((BridgeCall.delete_view (some "v1")).exec sampleExtern
            (dcmaui_register_swift_functions 1 2 3 4 5 6 7 8 (World.initial 0))).2.log
          ++ calls :=
  ⟨by decide, by decide,
   (isolation_across_identifiers sampleExtern (BridgeCall.delete_view (some "v1"))
      (BridgeCall.update_view (some "v2") (some "props"))
      (dcmaui_register_swift_functions 1 2 3 4 5 6 7 8 (World.initial 0))
      (by decide) (by decide)).2.2.2⟩

/-- C7: `dcmaui_set_event_callback` writes the event-sink slot and leaves the eight
command slots (and host and log) as they were; `dcmaui_register_swift_functions`
writes the eight command slots with its eight arguments and leaves the event-sink
slot (and host and log) as it was; and no call other than a registration call
changes a command slot. -/
theorem slots_set_independently {H : Type} (x : Extern H) (w : World H) (callback : FnPtr)
    (init create update delete attach set_children add_listeners remove_listeners : FnPtr)
    (c : BridgeCall) (hc : c.isRegistration = false) :
    (dcmaui_set_event_callback callback w).reg.commandSlots = w.reg.commandSlots ∧
    (dcmaui_set_event_callback callback w).reg.event_callback = callback ∧
    (dcmaui_set_event_callback callback w).host = w.host ∧
    (dcmaui_set_event_callback callback w).log = w.log ∧
    (dcmaui_register_swift_functions init create update delete attach set_children
        add_listeners remove_listeners w).reg.event_callback = w.reg.event_callback ∧
    (dcmaui_register_swift_functions init create update delete attach set_children
        add_listeners remove_listeners w).reg.commandSlots
      = [init, create, update, delete, attach, set_children, add_listeners,
         remove_listeners] ∧
    (dcmaui_register_swift_functions init create update delete attach set_children
        add_listeners remove_listeners w).host = w.host ∧
    (dcmaui_register_swift_functions init create update delete attach set_children
        add_listeners remove_listeners w).log = w.log ∧
    (c.exec x w).2.reg.commandSlots = w.reg.commandSlots :=
  ⟨rfl, rfl, rfl, rfl, rfl, rfl, rfl, rfl, exec_commandSlots x c w hc⟩

theorem slots_set_independently_witness :
    (BridgeCall.set_event_callback 9).isRegistration = false ∧
    ((BridgeCall.set_event_callback 9).exec sampleExtern
        (dcmaui_register_swift_functions 1 2 3 4 5 6 7 8 (World.initial 0))).2.reg.commandSlots
      = [1, 2, 3, 4, 5, 6, 7, 8] :=
  ⟨by decide,
   (slots_set_independently sampleExtern
      (dcmaui_register_swift_functions 1 2 3 4 5 6 7 8 (World.initial 0)) 9
      1 2 3 4 5 6 7 8 (BridgeCall.set_event_callback 9) (by decide)).2.2.2.2.2.2.2.2⟩

/-- C8: after `dcmaui_set_event_callback(cb1)` followed by
`dcmaui_set_event_callback(cb2)` with `cb2` not `NULL`, and any further calls that are
not `dcmaui_set_event_callback`, `dcmaui_send_event(v, t, d)` makes exactly one
indirect call, to `cb2`, with `(v, t, d)`; no call to a sink at another address is
made, in particular none to `cb1` (when `cb1` is a function other than `cb2`). -/
theorem last_event_callback_wins {H : Type} (x : Extern H) (w : World H) (cb1 cb2 : FnPtr)
    (ops : List BridgeCall) (v t d : CStr)
    (hcb2 : cb2 ≠ NULL) (hops : ∀ c ∈ ops, c.isSetEventCallback = false) :
    dcmaui_send_event x v t d
        (run x ops (dcmaui_set_event_callback cb2 (dcmaui_set_event_callback cb1 w)))
      = { reg := (run x ops
            (dcmaui_set_event_callback cb2 (dcmaui_set_event_callback cb1 w))).reg,
          host := x.sink cb2 v t d (run x ops
            (dcmaui_set_event_callback cb2 (dcmaui_set_event_callback cb1 w))).host,
          log := (run x ops
            (dcmaui_set_event_callback cb2 (dcmaui_set_event_callback cb1 w))).log
              ++ [Invocation.event cb2 v t d] } ∧
    (cb1 ≠ cb2 → ∀ v2 t2 d2 : CStr,
      Invocation.event cb1 v2 t2 d2 ∉
        (dcmaui_send_event x v t d
          (run x ops (dcmaui_set_event_callback cb2 (dcmaui_set_event_callback cb1 w)))).log.drop
          (run x ops
            (dcmaui_set_event_callback cb2 (dcmaui_set_event_callback cb1 w))).log.length) := by
  have hslot : (run x ops
      (dcmaui_set_event_callback cb2 (dcmaui_set_event_callback cb1 w))).reg.event_callback
      = cb2 := by
    rw [run_event_callback x ops _ hops]
    rfl
  generalize run x ops (dcmaui_set_event_callback cb2 (dcmaui_set_event_callback cb1 w)) = W
    at hslot ⊢
  have hsend : dcmaui_send_event x v t d W = W.callEvent x cb2 v t d := by
    simp [dcmaui_send_event, hslot, hcb2]
  refine ⟨by rw [hsend]; rfl, ?_⟩
  intro hne v2 t2 d2
  rw [hsend]
  simp [World.callEvent, hne]

theorem last_event_callback_wins_witness :
    (6 : FnPtr) ≠ NULL ∧
    (∀ c ∈ [BridgeCall.send_event (some "v0") (some "tap") none,
            BridgeCall.register_swift_functions 1 2 3 4 5 6 7 8],
        c.isSetEventCallback = false) ∧
    (dcmaui_send_event sampleExtern (some "v1") (some "tap") (some "data")
        (run sampleExtern [BridgeCall.send_event (some "v0") (some "tap") none,
            BridgeCall.register_swift_functions 1 2 3 4 5 6 7 8]
          (dcmaui_set_event_callback 6 (dcmaui_set_event_callback 5 (World.initial 0))))).log
      = [Invocation.event 6 (some "v0") (some "tap") none,
         Invocation.event 6 (some "v1") (some "tap") (some "data")] :=
  ⟨by decide, by decide,
   congrArg World.log
     (last_event_callback_wins sampleExtern (World.initial 0) 5 6
        [BridgeCall.send_event (some "v0") (some "tap") none,
         BridgeCall.register_swift_functions 1 2 3 4 5 6 7 8]
        (some "v1") (some "tap") (some "data") (by decide) (by decide)).1⟩

/-! ## Lifecycle of the registry -/

/-- C9, as stated, fails: after a registration has made the registry Ready, a second
registration call with eight `NULL` handlers makes it Unready again, and the command
entry points return `0` without any indirect call. -/
theorem ready_reverts_counterexample :
    (World.initial 0).reg.Unready ∧
    (dcmaui_register_swift_functions 1 2 3 4 5 6 7 8 (World.initial 0)).reg.Ready ∧
    (run sampleExtern
        [BridgeCall.register_swift_functions NULL NULL NULL NULL NULL NULL NULL NULL]
        (dcmaui_register_swift_functions 1 2 3 4 5 6 7 8 (World.initial 0))).reg.Unready ∧
    dcmaui_create_view sampleExtern (some "v1") (some "button") (some "props")
        (run sampleExtern
          [BridgeCall.register_swift_functions NULL NULL NULL NULL NULL NULL NULL NULL]
          (dcmaui_register_swift_functions 1 2 3 4 5 6 7 8 (World.initial 0)))
      = (0, World.initial 0) := by
  decide

/-- C9, amended: only a registration call changes whether the registry is Ready.  Over
any sequence of calls of `dcmaui_set_event_callback`, the command entry points and
`dcmaui_send_event` a Ready registry stays Ready (and an Unready one Unready); after
`dcmaui_register_swift_functions` the registry is Ready exactly when one of the eight
arguments is not `NULL`. -/
theorem ready_changes_only_by_registration {H : Type} (x : Extern H) (w : World H)
    (ops : List BridgeCall)
    (init create update delete attach set_children add_listeners remove_listeners : FnPtr)
    (hops : ∀ c ∈ ops, c.isRegistration = false) :
    ((run x ops w).reg.Ready ↔ w.reg.Ready) ∧
    ((dcmaui_register_swift_functions init create update delete attach set_children
        add_listeners remove_listeners (run x ops w)).reg.Ready
      ↔ ∃ p ∈ [init, create, update, delete, attach, set_children, add_listeners,
               remove_listeners], p ≠ NULL) := by
  constructor
  · unfold Registry.Ready Registry.Unready
    rw [run_commandSlots x ops w hops]
  · unfold Registry.Ready Registry.Unready
    have hs : (dcmaui_register_swift_functions init create update delete attach set_children
        add_listeners remove_listeners (run x ops w)).reg.commandSlots
        = [init, create, update, delete, attach, set_children, add_listeners,
           remove_listeners] := rfl
    rw [hs]
    push_neg
    exact Iff.rfl

theorem ready_changes_only_by_registration_witness :
    (∀ c ∈ [BridgeCall.set_event_callback NULL,
            BridgeCall.delete_view (some "v1"),
            BridgeCall.send_event (some "v1") (some "tap") none],
        c.isRegistration = false) ∧
    ((run sampleExtern [BridgeCall.set_event_callback NULL,
            BridgeCall.delete_view (some "v1"),
            BridgeCall.send_event (some "v1") (some "tap") none]
        (dcmaui_register_swift_functions 1 2 3 4 5 6 7 8 (World.initial 0))).reg.Ready
      ↔ (dcmaui_register_swift_functions 1 2 3 4 5 6 7 8 (World.initial 0)).reg.Ready) :=
  ⟨by decide,
   (ready_changes_only_by_registration sampleExtern
      (dcmaui_register_swift_functions 1 2 3 4 5 6 7 8 (World.initial 0))
      [BridgeCall.set_event_callback NULL,
       BridgeCall.delete_view (some "v1"),
       BridgeCall.send_event (some "v1") (some "tap") none]
      0 0 0 0 0 0 0 0 (by decide)).1⟩

/-- C10, as stated, fails: registering a handler for `init` only is reachable from the
initial world, and then `dcmaui_initialize` forwards to the handler while
`dcmaui_create_view` returns `0` without any indirect call. -/
theorem partially_ready_counterexample :
    ¬ ((run sampleExtern
          [BridgeCall.register_swift_functions 1 NULL NULL NULL NULL NULL NULL NULL]
          (World.initial 0)).reg.AllForward ∨
       (run sampleExtern
          [BridgeCall.register_swift_functions 1 NULL NULL NULL NULL NULL NULL NULL]
          (World.initial 0)).reg.Unready) ∧
    ( dcmaui_initialize sampleExtern
        (run sampleExtern
          [BridgeCall.register_swift_functions 1 NULL NULL NULL NULL NULL NULL NULL]
          (World.initial 0))).2.log = [Invocation.swift 1 Args.none] ∧
    dcmaui_create_view sampleExtern (some "v1") (some "button") (some "props")
        (run sampleExtern
          [BridgeCall.register_swift_functions 1 NULL NULL NULL NULL NULL NULL NULL]
          (World.initial 0))
      = (0, run sampleExtern
          [BridgeCall.register_swift_functions 1 NULL NULL NULL NULL NULL NULL NULL]
          (World.initial 0)) := by
  decide

/-- C10, amended: the eight command slots are always written together.  In every
world reached from the initial world by bridge calls, the eight command slots are the
eight arguments of the last registration call, or all `NULL` if there was none. -/
theorem command_slots_are_last_registration {H : Type} (x : Extern H) (h : H)
    (ops : List BridgeCall) :
    (run x ops (World.initial h)).reg.commandSlots
      = (lastRegistration ops).getD [NULL, NULL, NULL, NULL, NULL, NULL, NULL, NULL] := by
  have key : ∀ (cs : List BridgeCall) (w : World H),
      (run x cs w).reg.commandSlots = (lastRegistration cs).getD w.reg.commandSlots := by
    intro cs
    induction cs with
    | nil => intro w; rfl
    | cons c cs ih =>
      intro w
      simp only [run, lastRegistration]
      rw [ih (c.exec x w).2]
      cases hl : lastRegistration cs with
      | some r => rfl
      | none =>
        cases c <;>
          first
          | rfl
          | exact exec_commandSlots x _ w rfl
  exact key ops (World.initial h)

end DCMAUI
